import Mathlib

/-!
Verification development for the promptdesk backend.

The generation pipeline (variable substitution, request mapping,
orchestration) is modelled from the specification, since only its
interface documentation ships in the repository; the MongoDB model
classes (Prompt, Organization, Variable, Log) and the apps router are
embedded from their in-repository documentation, and the Express
routing stack is embedded from backend/src/index.ts.
-/

namespace PromptDesk

/-! ## Association lists (shared helper for Mixed key/value fields) -/

/-- Lookup of the first value bound to a key in an association list. -/
def lookupAssoc : List (String × String) → String → Option String
  | [], _ => none
  | (k, v) :: rest, n => if k = n then some v else lookupAssoc rest n

/-- Update the first binding of a key, or append one when absent. -/
def setAssoc : List (String × String) → String → String → List (String × String)
  | [], k, v => [(k, v)]
  | (k', v') :: rest, k, v =>
    if k' = k then (k, v) :: rest else (k', v') :: setAssoc rest k v

/-! ## 4.1 Variable Substitution Engine

Modelled from the spec: the substitution engine's source file is not in
the repository snapshot.  A template is a list of chunks, each either a
literal piece of text or a `\x7b\x7bname\x7d\x7d` placeholder; `render`
replaces every placeholder by the caller-supplied value and fails with
the name of the first unresolved placeholder (spec section 4.1:
"an unresolved placeholder is a SubstitutionError naming the missing
variable — rendering never silently emits the literal placeholder
text"). -/

inductive Chunk where
  | lit (s : String)
  | var (name : String)
deriving DecidableEq

/-- Modelled from the spec: placeholder names referenced by a template. -/
def referencedVars : List Chunk → List String
  | [] => []
  | .lit _ :: rest => referencedVars rest
  | .var n :: rest => n :: referencedVars rest

/-- Modelled from the spec: `render(template, variables)` either
substitutes every placeholder or fails with the name of a missing
variable (`SubstitutionError` is represented by the `Except.error`
carrying that name). -/
def render : List Chunk → List (String × String) → Except String String
  | [], _ => .ok ""
  | .lit s :: rest, vars => (render rest vars).map (fun t => s ++ t)
  | .var n :: rest, vars =>
    match lookupAssoc vars n with
    | none => .error n
    | some v => (render rest vars).map (fun t => v ++ t)

/-- The literal text `\x7b\x7bname\x7d\x7d` of a placeholder, built
from characters so that the braces appear explicitly. -/
def placeholderText (n : String) : String :=
  String.mk ('{' :: '{' :: (n.data ++ ['}', '}']))

lemma lookupAssoc_mem (vars : List (String × String)) (n w : String)
    (hv : lookupAssoc vars n = some w) : (n, w) ∈ vars := by
  induction vars with
  | nil => cases hv
  | cons kv tl ihv =>
    obtain ⟨k', v'⟩ := kv
    by_cases hk : k' = n
    · subst hk
      simp [lookupAssoc] at hv
      simp [hv]
    · simp [lookupAssoc, hk] at hv
      exact List.mem_cons_of_mem _ (ihv hv)

lemma render_error_of_missing (t : List Chunk) (vars : List (String × String)) :
    ∀ n, n ∈ referencedVars t → lookupAssoc vars n = none →
      ∃ m, render t vars = .error m ∧ m ∈ referencedVars t ∧ lookupAssoc vars m = none := by
  induction t with
  | nil => intro n hn; simp [referencedVars] at hn
  | cons c rest ih =>
    intro n hn hmiss
    cases c with
    | lit s =>
      simp only [referencedVars] at hn
      obtain ⟨m, hm, hmem, hmm⟩ := ih n hn hmiss
      exact ⟨m, by simp [render, hm, Except.map], by simp [referencedVars, hmem], hmm⟩
    | var v =>
      cases hv : lookupAssoc vars v with
      | none =>
        exact ⟨v, by simp [render, hv], by simp [referencedVars], hv⟩
      | some w =>
        simp only [referencedVars, List.mem_cons] at hn
        rcases hn with rfl | hn
        · rw [hv] at hmiss; cases hmiss
        · obtain ⟨m, hm, hmem, hmm⟩ := ih n hn hmiss
          exact ⟨m, by simp [render, hv, hm, Except.map], by simp [referencedVars, hmem], hmm⟩

lemma render_ok_no_brace (t : List Chunk) (vars : List (String × String)) (s : String)
    (hok : render t vars = .ok s)
    (hlit : ∀ c, Chunk.lit c ∈ t → '{' ∉ c.data)
    (hval : ∀ k v, (k, v) ∈ vars → '{' ∉ v.data) :
    '{' ∉ s.data := by
  induction t generalizing s with
  | nil =>
    simp only [render, Except.ok.injEq] at hok
    subst hok; simp [String.data]
  | cons c rest ih =>
    cases c with
    | lit p =>
      simp only [render] at hok
      cases hr : render rest vars with
      | error e => rw [hr] at hok; simp [Except.map] at hok
      | ok u =>
        rw [hr] at hok; simp only [Except.map, Except.ok.injEq] at hok
        subst hok
        intro hmem
        rw [String.data_append] at hmem
        rcases List.mem_append.mp hmem with h | h
        · exact hlit p (by simp) h
        · exact ih u hr (fun c hc => hlit c (by simp [hc])) h
    | var n =>
      simp only [render] at hok
      cases hv : lookupAssoc vars n with
      | none => rw [hv] at hok; cases hok
      | some w =>
        rw [hv] at hok
        cases hr : render rest vars with
        | error e => rw [hr] at hok; simp [Except.map] at hok
        | ok u =>
          rw [hr] at hok; simp only [Except.map, Except.ok.injEq] at hok
          subst hok
          intro hmem
          rw [String.data_append] at hmem
          rcases List.mem_append.mp hmem with h | h
          · exact hval n w (lookupAssoc_mem vars n w hv) h
          · exact ih u hr (fun c hc => hlit c (by simp [hc])) h

/-- C3: if a template references a placeholder absent from the
variable set, `render` fails with a `SubstitutionError` naming a
missing variable, and a successful rendering (of brace-free literals
and values) never contains the literal placeholder text
`\x7b\x7bname\x7d\x7d`. -/
theorem render_missing_named_and_no_placeholder_passthrough
    (t : List Chunk) (vars : List (String × String)) :
    (∀ n, n ∈ referencedVars t → lookupAssoc vars n = none →
      ∃ m, render t vars = .error m ∧ m ∈ referencedVars t ∧ lookupAssoc vars m = none)
    ∧ (∀ s, render t vars = .ok s →
      (∀ c, Chunk.lit c ∈ t → '{' ∉ c.data) →
      (∀ k v, (k, v) ∈ vars → '{' ∉ v.data) →
      ∀ n : String, ¬ List.IsInfix (placeholderText n).data s.data) := by
  refine ⟨render_error_of_missing t vars, ?_⟩
  intro s hok hlit hval n hinf
  have hsub : (placeholderText n).data ⊆ s.data := hinf.subset
  have hbrace : '{' ∈ (placeholderText n).data := by
    simp [placeholderText]
  exact render_ok_no_brace t vars s hok hlit hval (hsub hbrace)

/-- Witness for C3 at concrete inputs: a template referencing `topic`
with an empty variable set fails naming `topic`, and the successful
rendering of `Summarize: \x7b\x7btext\x7d\x7d` with `text` bound never
contains the placeholder text. -/
theorem render_missing_named_witness :
    (∃ m, render [Chunk.var "topic"] [] = .error m ∧
      m ∈ referencedVars [Chunk.var "topic"] ∧ lookupAssoc [] m = none)
    ∧ ¬ List.IsInfix (placeholderText "text").data
        (String.data "Summarize: hello world") := by
  constructor
  · exact (render_missing_named_and_no_placeholder_passthrough
      [Chunk.var "topic"] []).1 "topic" (by simp [referencedVars]) (by rfl)
  · have h2 : ∀ c, Chunk.lit c ∈ [Chunk.lit "Summarize: ", Chunk.var "text"] →
        '{' ∉ c.data := by
      intro c hc
      simp only [List.mem_cons, List.not_mem_nil, or_false] at hc
      rcases hc with hc | hc
      · injection hc with h
        subst h
        decide
      · cases hc
    have h3 : ∀ (k v : String), (k, v) ∈ [("text", "hello world")] → '{' ∉ v.data := by
      intro k v hv
      simp only [List.mem_singleton, Prod.mk.injEq] at hv
      rcases hv with ⟨rfl, rfl⟩
      decide
    exact (render_missing_named_and_no_placeholder_passthrough
      [Chunk.lit "Summarize: ", Chunk.var "text"] [("text", "hello world")]).2
      "Summarize: hello world" (by rfl) h2 h3 "text"

/-! ## Data model: ModelConfig

Embedded from the in-repository documentation of
backend/src/models/mongodb/model.ts: the schema fields name, type,
provider, api_call (url, method, headers), input_format, output_format,
model_parameters, default, organization_id, deleted, request_mapping
and response_mapping.  Mixed fields are modelled as association
lists. -/

structure ApiCall where
  url : String
  method : String
  headers : List (String × String)
deriving DecidableEq

structure ModelConfig where
  name : String
  type : String
  provider : String
  api_call : ApiCall
  input_format : String
  output_format : String
  model_parameters : List (String × String)
  default : Bool
  organization_id : String
  deleted : Bool
  request_mapping : List (String × String)
  response_mapping : List (String × String)
deriving DecidableEq

/-! ## 4.2 Request Mapper

Modelled from the spec: the request mapper's source file is not in the
repository snapshot.  Spec section 4.2: "for chat-type models the body
is a sequence-of-turns structure, for completion-type models a single
string/object — the mapper must branch on ModelConfig.type, not guess
from shape". -/

structure Turn where
  role : String
  content : String
deriving DecidableEq

inductive RenderedPrompt where
  | chatTurns (turns : List Turn)
  | text (s : String)
deriving DecidableEq

inductive RequestBody where
  | turnSeq (turns : List Turn)
  | singleText (s : String)
deriving DecidableEq

/-- Whether a request body is a sequence-of-turns structure. -/
def RequestBody.isSeq : RequestBody → Bool
  | .turnSeq _ => true
  | .singleText _ => false

/-- Modelled from the spec: coercion of a rendered prompt into a chat
turn sequence (a bare string becomes a single user turn). -/
def asTurns : RenderedPrompt → List Turn
  | .chatTurns ts => ts
  | .text s => [⟨"user", s⟩]

/-- Modelled from the spec: coercion of a rendered prompt into a single
completion string. -/
def asText : RenderedPrompt → String
  | .text s => s
  | .chatTurns ts => String.intercalate "\n" (ts.map Turn.content)

structure OutboundRequest where
  method : String
  url : String
  headers : List (String × String)
  body : RequestBody
deriving DecidableEq

/-- Modelled from the spec: `buildRequest` assembles the outbound
provider call; the body shape is selected by branching on
`ModelConfig.type`. -/
def buildRequest (cfg : ModelConfig) (renderedPrompt : RenderedPrompt) : OutboundRequest :=
  { method := cfg.api_call.method
    url := cfg.api_call.url
    headers := cfg.api_call.headers
    body :=
      if cfg.type = "chat" then .turnSeq (asTurns renderedPrompt)
      else .singleText (asText renderedPrompt) }

/-- C4: for a chat-type model the request body is a sequence of turn
objects, for a completion-type model it is never a sequence, and the
body shape depends only on `ModelConfig.type`, not on the shape of the
rendered prompt. -/
theorem buildRequest_body_shape_branches_on_type
    (cfg : ModelConfig) (p : RenderedPrompt) :
    (cfg.type = "chat" → ∃ ts, (buildRequest cfg p).body = .turnSeq ts)
    ∧ (cfg.type = "completion" → ∀ ts, (buildRequest cfg p).body ≠ .turnSeq ts)
    ∧ (∀ q : RenderedPrompt,
        (buildRequest cfg p).body.isSeq = (buildRequest cfg q).body.isSeq) := by
  refine ⟨?_, ?_, ?_⟩
  · intro h
    exact ⟨asTurns p, by simp [buildRequest, h]⟩
  · intro h ts
    have hne : cfg.type ≠ "chat" := by
      rw [h]
      decide
    simp [buildRequest, hne]
  · intro q
    by_cases h : cfg.type = "chat" <;> simp [buildRequest, h, RequestBody.isSeq]

/-- A sample chat-type model configuration, for witnesses. -/
def sampleChatModel : ModelConfig :=
  { name := "sample-chat"
    type := "chat"
    provider := "sample"
    api_call := { url := "https://provider.example/v1/chat", method := "POST", headers := [] }
    input_format := ""
    output_format := ""
    model_parameters := [("temperature", "0.8")]
    default := true
    organization_id := "org1"
    deleted := false
    request_mapping := []
    response_mapping := [] }

/-- A sample completion-type model configuration, for witnesses. -/
def sampleCompletionModel : ModelConfig :=
  { sampleChatModel with name := "sample-completion", type := "completion" }

/-- Witness for C4 at concrete inputs: the chat-type sample model maps
a bare string prompt to a turn sequence, and the completion-type sample
model never produces a turn sequence from a chat-shaped prompt. -/
theorem buildRequest_body_shape_witness :
    (∃ ts, (buildRequest sampleChatModel (RenderedPrompt.text "hi")).body
      = RequestBody.turnSeq ts)
    ∧ (∀ ts, (buildRequest sampleCompletionModel
        (RenderedPrompt.chatTurns [⟨"user", "hi"⟩])).body ≠ RequestBody.turnSeq ts) := by
  constructor
  · exact (buildRequest_body_shape_branches_on_type sampleChatModel
      (RenderedPrompt.text "hi")).1 (by rfl)
  · exact (buildRequest_body_shape_branches_on_type sampleCompletionModel
      (RenderedPrompt.chatTurns [⟨"user", "hi"⟩])).2.1 (by rfl)

/-! ## 4.3-4.5 Provider client outcomes, response mapper, orchestrator

Modelled from the spec: the orchestrator's source file is not in the
repository snapshot.  Spec section 4.5: "generate(request) ->
GenerationResult.  Never throws to its caller ... all outcomes are
represented as a GenerationResult with a populated error field and an
HTTP-style status"; "exactly one LogEntry is produced per call to
generate, including on every failure path"; section 7: "log-write
failure itself is never allowed to mask or alter the generation
outcome returned to the caller". -/

inductive ProviderError where
  | timeout
  | network
deriving DecidableEq

structure RawResponse where
  status : Nat
  body : String
deriving DecidableEq

structure NormalizedOutput where
  text : String
  providerError : Option String
deriving DecidableEq

structure GenerationResult where
  status : Nat
  message : String
  error : Option String
  durationMs : Nat
deriving DecidableEq

structure LogEntry where
  message : String
  error : Bool
  status : Nat
  model_id : String
  prompt_id : Option String
  organization_id : String
  duration : Nat
deriving DecidableEq

/-- Modelled from the spec: a prompt template is a string template for
completion models or a chat-turn sequence whose contents are templates
for chat models (spec section 3, PromptConfig.promptData). -/
inductive PromptTemplate where
  | completionTmpl (chunks : List Chunk)
  | chatTmpl (turns : List (String × List Chunk))
deriving DecidableEq

structure PromptConfig where
  id : String
  modelId : String
  prompt_data : PromptTemplate
  prompt_variables : List (String × String)
  organization_id : String
deriving DecidableEq

/-- Modelled from the spec: render every turn content of a chat
template, failing with the first missing variable name. -/
def renderTurns : List (String × List Chunk) → List (String × String) → Except String (List Turn)
  | [], _ => .ok []
  | (role, cs) :: rest, vs =>
    match render cs vs with
    | .error n => .error n
    | .ok c =>
      match renderTurns rest vs with
      | .error n => .error n
      | .ok ts => .ok (⟨role, c⟩ :: ts)

/-- Modelled from the spec: render a prompt template of either shape. -/
def renderTemplate : PromptTemplate → List (String × String) → Except String RenderedPrompt
  | .completionTmpl cs, vs => (render cs vs).map RenderedPrompt.text
  | .chatTmpl ts, vs => (renderTurns ts vs).map RenderedPrompt.chatTurns

/-- Modelled from the spec: the log sink (external collaborator);
`none` represents a failed append, `some` an acknowledgment id. -/
def appendLog (sinkOk : Bool) (_e : LogEntry) : Option Nat :=
  if sinkOk then some 1 else none

structure GenerateOutcome where
  result : GenerationResult
  logs : List LogEntry
  sinkAck : Option Nat
deriving DecidableEq

/-- The audit record assembled from a generation result. -/
def mkLogEntry (r : GenerationResult) (modelId : String) (promptId : Option String)
    (orgId : String) : LogEntry :=
  { message := r.message
    error := r.error.isSome
    status := r.status
    model_id := modelId
    prompt_id := promptId
    organization_id := orgId
    duration := r.durationMs }

/-- Finish a generation attempt: emit exactly one audit record to the
log sink (fire-and-forget) and return the result. -/
def emit (r : GenerationResult) (modelId : String) (promptId : Option String)
    (orgId : String) (sinkOk : Bool) : GenerateOutcome :=
  let e := mkLogEntry r modelId promptId orgId
  { result := r, logs := [e], sinkAck := appendLog sinkOk e }

def providerErrorText : ProviderError → String
  | .timeout => "ProviderError: timeout"
  | .network => "ProviderError: network failure"

/-- Modelled from the spec: the Generation Orchestrator.  The config
lookups, the provider call and the response mapping are environment
outcomes passed as arguments; every path assembles a `GenerationResult`
and emits exactly one audit record. -/
def generate (modelLookup : Option ModelConfig) (promptLookup : Option PromptConfig)
    (runtimeVariables : List (String × String))
    (provider : OutboundRequest → Except ProviderError RawResponse)
    (mapResponse : RawResponse → Except String NormalizedOutput)
    (durationMs : Nat) (organization_id : String) (sinkOk : Bool) : GenerateOutcome :=
  match modelLookup with
  | none =>
    emit ⟨404, "", some "ConfigurationError: model not found", durationMs⟩
      "" none organization_id sinkOk
  | some mcfg =>
    match promptLookup with
    | none =>
      emit ⟨404, "", some "ConfigurationError: prompt not found", durationMs⟩
        mcfg.name none organization_id sinkOk
    | some pcfg =>
      match renderTemplate pcfg.prompt_data runtimeVariables with
      | .error n =>
        emit ⟨400, "", some ("SubstitutionError: missing variable " ++ n), durationMs⟩
          mcfg.name (some pcfg.id) organization_id sinkOk
      | .ok rendered =>
        match provider (buildRequest mcfg rendered) with
        | .error pe =>
          emit ⟨500, "", some (providerErrorText pe), durationMs⟩
            mcfg.name (some pcfg.id) organization_id sinkOk
        | .ok raw =>
          match mapResponse raw with
          | .error m =>
            emit ⟨400, "", some ("MappingError: " ++ m), durationMs⟩
              mcfg.name (some pcfg.id) organization_id sinkOk
          | .ok out =>
            match out.providerError with
            | some e =>
              emit ⟨raw.status, out.text, some e, durationMs⟩
                mcfg.name (some pcfg.id) organization_id sinkOk
            | none =>
              emit ⟨200, out.text, none, durationMs⟩
                mcfg.name (some pcfg.id) organization_id sinkOk

/-- C1: every call to `generate` — success, mapping error, provider
error, timeout or configuration error — emits exactly one `LogEntry`
to the log sink. -/
theorem generate_exactly_one_log_entry
    (m : Option ModelConfig) (p : Option PromptConfig)
    (vs : List (String × String))
    (prov : OutboundRequest → Except ProviderError RawResponse)
    (mapR : RawResponse → Except String NormalizedOutput)
    (d : Nat) (org : String) (b : Bool) :
    (generate m p vs prov mapR d org b).logs.length = 1 := by
  rcases m with _ | mcfg
  · rfl
  rcases p with _ | pcfg
  · rfl
  simp only [generate]
  cases hr : renderTemplate pcfg.prompt_data vs with
  | error n => rfl
  | ok rendered =>
    cases hp : prov (buildRequest mcfg rendered) with
    | error pe => simp [hp, emit]
    | ok raw =>
      cases hm : mapR raw with
      | error msg => simp [hp, hm, emit]
      | ok out =>
        cases ho : out.providerError with
        | none => simp [hp, hm, ho, emit]
        | some e => simp [hp, hm, ho, emit]

/-- C2: `generate` always returns a `GenerationResult` whose `error`
field is populated exactly on the failure paths (and empty exactly on
full success), and a failure of the log-append call never changes the
returned result. -/
theorem generate_result_error_characterization_and_sink_isolation
    (m : Option ModelConfig) (p : Option PromptConfig)
    (vs : List (String × String))
    (prov : OutboundRequest → Except ProviderError RawResponse)
    (mapR : RawResponse → Except String NormalizedOutput)
    (d : Nat) (org : String) :
    (∀ b b' : Bool,
      (generate m p vs prov mapR d org b).result
        = (generate m p vs prov mapR d org b').result)
    ∧ (∀ b : Bool,
      ((generate m p vs prov mapR d org b).result.error = none ↔
        ∃ mcfg pcfg rendered raw out,
          m = some mcfg ∧ p = some pcfg
          ∧ renderTemplate pcfg.prompt_data vs = .ok rendered
          ∧ prov (buildRequest mcfg rendered) = .ok raw
          ∧ mapR raw = .ok out ∧ out.providerError = none)) := by
  rcases m with _ | mcfg
  · exact ⟨fun b b' => rfl, fun b => by simp [generate, emit]⟩
  rcases p with _ | pcfg
  · exact ⟨fun b b' => rfl, fun b => by simp [generate, emit]⟩
  cases hr : renderTemplate pcfg.prompt_data vs with
  | error n =>
    exact ⟨fun b b' => by simp [generate, hr, emit],
      fun b => by simp [generate, hr, emit]⟩
  | ok rendered =>
    cases hp : prov (buildRequest mcfg rendered) with
    | error pe =>
      exact ⟨fun b b' => by simp [generate, hr, hp, emit],
        fun b => by simp [generate, hr, hp, emit, providerErrorText]⟩
    | ok raw =>
      cases hm : mapR raw with
      | error msg =>
        exact ⟨fun b b' => by simp [generate, hr, hp, hm, emit],
          fun b => by simp [generate, hr, hp, hm, emit]⟩
      | ok out =>
        cases ho : out.providerError with
        | some e =>
          exact ⟨fun b b' => by simp [generate, hr, hp, hm, ho, emit],
            fun b => by simp [generate, hr, hp, hm, ho, emit]⟩
        | none =>
          refine ⟨fun b b' => by simp [generate, hr, hp, hm, ho, emit], fun b => ?_⟩
          constructor
          · intro _
            exact ⟨mcfg, pcfg, rendered, raw, out, rfl, rfl, hr, hp, hm, ho⟩
          · intro _
            simp [generate, hr, hp, hm, ho, emit]

/-- A sample prompt configuration for witnesses: the completion
template `Summarize: \x7b\x7btext\x7d\x7d`. -/
def samplePromptCfg : PromptConfig :=
  { id := "p1"
    modelId := "m1"
    prompt_data := .completionTmpl [Chunk.lit "Summarize: ", Chunk.var "text"]
    prompt_variables := [("text", "string")]
    organization_id := "org1" }

/-- A sample provider that returns HTTP 200 with a fixed body. -/
def sampleProvider : OutboundRequest → Except ProviderError RawResponse :=
  fun _ => .ok ⟨200, "raw body"⟩

/-- A sample response mapping that extracts a fixed output and reports
no provider error. -/
def sampleMapResponse : RawResponse → Except String NormalizedOutput :=
  fun _ => .ok ⟨"hello output", none⟩

/-- Witness for C2 at concrete inputs: with a working pipeline, the
result is identical whether the log append succeeds or fails, and the
error field is empty on the success path. -/
theorem generate_result_witness :
    ((generate (some sampleCompletionModel) (some samplePromptCfg)
        [("text", "hello world")] sampleProvider sampleMapResponse 5 "org1" true).result
      = (generate (some sampleCompletionModel) (some samplePromptCfg)
        [("text", "hello world")] sampleProvider sampleMapResponse 5 "org1" false).result)
    ∧ (generate (some sampleCompletionModel) (some samplePromptCfg)
        [("text", "hello world")] sampleProvider sampleMapResponse 5 "org1" true).result.error
      = none := by
  constructor
  · exact (generate_result_error_characterization_and_sink_isolation
      (some sampleCompletionModel) (some samplePromptCfg) [("text", "hello world")]
      sampleProvider sampleMapResponse 5 "org1").1 true false
  · exact ((generate_result_error_characterization_and_sink_isolation
      (some sampleCompletionModel) (some samplePromptCfg) [("text", "hello world")]
      sampleProvider sampleMapResponse 5 "org1").2 true).mpr
      ⟨sampleCompletionModel, samplePromptCfg,
        RenderedPrompt.text "Summarize: hello world", ⟨200, "raw body"⟩,
        ⟨"hello output", none⟩, rfl, rfl, by rfl, by rfl, by rfl, by rfl⟩

/-! ## Prompt model

Embedded from the in-repository documentation of
backend/src/models/mongodb/prompt.ts: schema fields name, description,
model, prompt_variables, model_parameters, prompt_data, model_type,
organization_id, project, app; `findPromptByAppId(appId, unsecure)`
returns the full transformed prompt when `unsecure` is true and
otherwise a restricted object with only name, description and
prompt_variables. -/

structure PromptDoc where
  id : String
  name : String
  description : String
  model : String
  prompt_variables : List (String × String)
  model_parameters : List (String × String)
  prompt_data : PromptTemplate
  model_type : String
  organization_id : String
  project : Option String
  app : Option String
deriving DecidableEq

inductive AppPromptView where
  | full (p : PromptDoc)
  | restricted (name description : String) (prompt_variables : List (String × String))
deriving DecidableEq

/-- The restricted object built in the secure branch of
`findPromptByAppId`: only name, description and prompt_variables. -/
def secureView (p : PromptDoc) : AppPromptView :=
  .restricted p.name p.description p.prompt_variables

/-- `Prompt.findPromptByAppId`: find the first prompt whose `app`
field equals the given app id; return the full prompt when `unsecure`
is true and the restricted view otherwise. -/
def findPromptByAppId (coll : List PromptDoc) (appId : String) (unsecure : Bool) :
    Option AppPromptView :=
  match coll.find? (fun p => p.app == some appId) with
  | none => none
  | some p => if unsecure then some (.full p) else some (secureView p)

/-- `GET /apps/:id`: look the prompt up in secure mode; 404 when
absent, 200 with the restricted data when present. -/
def appsGet (coll : List PromptDoc) (appId : String) : Nat × Option AppPromptView :=
  match findPromptByAppId coll appId false with
  | none => (404, none)
  | some v => (200, some v)

/-- C5: the public read of the app surface returns only the prompt's
name, description and prompt_variables — the returned view is fully
determined by those three fields, so model parameters, mapping rules
and the full prompt data are never included. -/
theorem appsGet_returns_only_restricted_fields
    (coll : List PromptDoc) (appId : String) :
    (∀ s v, appsGet coll appId = (s, some v) →
      s = 200 ∧ ∃ p, p ∈ coll ∧ p.app = some appId
        ∧ v = .restricted p.name p.description p.prompt_variables)
    ∧ (∀ p q : PromptDoc, p.name = q.name → p.description = q.description →
        p.prompt_variables = q.prompt_variables → secureView p = secureView q) := by
  constructor
  · intro s v hv
    unfold appsGet findPromptByAppId at hv
    cases hfind : coll.find? (fun p => p.app == some appId) with
    | none => rw [hfind] at hv; cases hv
    | some p =>
      rw [hfind] at hv
      simp only [if_neg (by simp : ¬ (false = true))] at hv
      obtain ⟨rfl, hv⟩ := Prod.mk.injEq .. ▸ hv
      refine ⟨rfl, p, List.mem_of_find?_eq_some hfind, ?_, ?_⟩
      · have := List.find?_some hfind
        exact eq_of_beq this
      · cases hv
        rfl
  · intro p q h1 h2 h3
    simp [secureView, h1, h2, h3]

/-- A sample prompt document bound to app id `app1`, for witnesses. -/
def samplePromptDoc : PromptDoc :=
  { id := "aaaaaaaaaaaaaaaaaaaaaaaa"
    name := "Summarizer"
    description := "Summarizes text"
    model := "m1"
    prompt_variables := [("text", "string")]
    model_parameters := [("temperature", "0.8")]
    prompt_data := .completionTmpl [Chunk.lit "Summarize: ", Chunk.var "text"]
    model_type := "completion"
    organization_id := "org1"
    project := none
    app := some "app1" }

/-- Witness for C5 at a concrete collection: the secure read of `app1`
yields status 200 and exactly the three restricted fields. -/
theorem appsGet_restricted_witness :
    200 = 200 ∧ ∃ p, p ∈ [samplePromptDoc] ∧ p.app = some "app1"
      ∧ AppPromptView.restricted "Summarizer" "Summarizes text" [("text", "string")]
        = .restricted p.name p.description p.prompt_variables :=
  (appsGet_returns_only_restricted_fields [samplePromptDoc] "app1").1 200
    (.restricted "Summarizer" "Summarizes text" [("text", "string")]) (by rfl)

/-! ## Organization model

Embedded from the in-repository documentation of
backend/src/models/mongodb/organization.ts: declared schema fields
name, keys (array of key/description objects), sso, namespaces;
`rotateApiKey` issues `findByIdAndUpdate(id, { api_key: randomApiKey })`,
which adds an unstructured top-level `api_key` field to the document
and leaves the `keys` array untouched.  Undeclared top-level fields of
the stored document are modelled by `extraFields`. -/

structure KeyEntry where
  key : String
  description : String
deriving DecidableEq

structure SsoEntry where
  provider : String
  client_id : String
  authorization_endpoint : String
  token_endpoint : String
  scopes : String
  redirect_endpoint : String
deriving DecidableEq

structure NamespaceEntry where
  name : String
  description : String
deriving DecidableEq

structure OrganizationDoc where
  id : String
  name : String
  keys : List KeyEntry
  sso : List SsoEntry
  namespaces : List NamespaceEntry
  extraFields : List (String × String)
deriving DecidableEq

/-- The field names declared by the organization schema. -/
def organizationSchemaFields : List String := ["name", "keys", "sso", "namespaces"]

/-- `Organization.getOrganizationById`. -/
def getOrganizationById (orgs : List OrganizationDoc) (id : String) : Option OrganizationDoc :=
  orgs.find? (fun o => o.id == id)

/-- `Organization.rotateApiKey`: writes the fresh key to a top-level
`api_key` field of the document. -/
def rotateApiKey (org : OrganizationDoc) (randomApiKey : String) : OrganizationDoc :=
  { org with extraFields := setAssoc org.extraFields "api_key" randomApiKey }

lemma lookupAssoc_setAssoc (fs : List (String × String)) (k v : String) :
    lookupAssoc (setAssoc fs k v) k = some v := by
  induction fs with
  | nil => simp [setAssoc, lookupAssoc]
  | cons kv rest ih =>
    obtain ⟨k', v'⟩ := kv
    by_cases hk : k' = k
    · simp [setAssoc, hk, lookupAssoc]
    · simp [setAssoc, hk, lookupAssoc, ih]

/-- C7: `rotateApiKey` stores the new key under the top-level
`api_key` field — a field absent from the declared schema — and leaves
every entry of the `keys` array (and every declared field) unchanged. -/
theorem rotateApiKey_undeclared_field_keys_unchanged
    (org : OrganizationDoc) (k : String) :
    (rotateApiKey org k).keys = org.keys
    ∧ lookupAssoc (rotateApiKey org k).extraFields "api_key" = some k
    ∧ "api_key" ∉ organizationSchemaFields
    ∧ (rotateApiKey org k).name = org.name
    ∧ (rotateApiKey org k).sso = org.sso
    ∧ (rotateApiKey org k).namespaces = org.namespaces := by
  refine ⟨rfl, ?_, ?_, rfl, rfl, rfl⟩
  · exact lookupAssoc_setAssoc org.extraFields "api_key" k
  · decide

/-- Witness for C7 at a concrete organization: rotating the key of an
organization with one declared key stores the new key under the
undeclared `api_key` field and leaves the `keys` array as it was. -/
theorem rotateApiKey_witness :
    (rotateApiKey ⟨"org1", "org-sample", [⟨"sk-old", "Default API Key"⟩], [], [], []⟩
        "sk-new").keys = [⟨"sk-old", "Default API Key"⟩]
    ∧ lookupAssoc (rotateApiKey
        ⟨"org1", "org-sample", [⟨"sk-old", "Default API Key"⟩], [], [], []⟩
        "sk-new").extraFields "api_key" = some "sk-new"
    ∧ "api_key" ∉ organizationSchemaFields := by
  have h := rotateApiKey_undeclared_field_keys_unchanged
    ⟨"org1", "org-sample", [⟨"sk-old", "Default API Key"⟩], [], [], []⟩ "sk-new"
  exact ⟨h.1, h.2.1, h.2.2.1⟩

/-! ## Apps router: POST /apps/:id

Embedded from the in-repository documentation of
backend/src/routes/api/apps.ts: fetch the full prompt for the app id,
fetch the owning organization to take its first API key as the bearer
token of an internal call to `/api/generate` with the client variables
injected, then relay the status, message and error of that internal
response back verbatim. -/

structure GenResponse where
  status : Nat
  message : String
  error : Option String
deriving DecidableEq

/-- The bearer key used for the internal call: the first key of the
prompt's owning organization. -/
def orgAuthKey (orgs : List OrganizationDoc) (orgId : String) : Option String :=
  (getOrganizationById orgs orgId).bind (fun o => o.keys.head?.map KeyEntry.key)

/-- `POST /apps/:id`: look up the full prompt, inject the request-body
variables, invoke the generation endpoint internally and relay its
response fields unchanged; 404 when no prompt is bound to the app. -/
def appsPost (prompts : List PromptDoc) (orgs : List OrganizationDoc) (appId : String)
    (bodyVars : List (String × String))
    (genEndpoint : PromptDoc → Option String → GenResponse) : GenResponse :=
  match findPromptByAppId prompts appId true with
  | some (.full p) =>
    genEndpoint { p with prompt_variables := bodyVars } (orgAuthKey orgs p.organization_id)
  | _ => ⟨404, "App not found", some "App not found"⟩

/-- C6: whenever the prompt lookup succeeds, the response of
`POST /apps/:id` has exactly the status, message and error produced by
the generation endpoint for the internally forwarded request. -/
theorem appsPost_relays_generate_verbatim
    (prompts : List PromptDoc) (orgs : List OrganizationDoc) (appId : String)
    (bodyVars : List (String × String))
    (genEndpoint : PromptDoc → Option String → GenResponse) (p : PromptDoc)
    (h : findPromptByAppId prompts appId true = some (.full p)) :
    appsPost prompts orgs appId bodyVars genEndpoint
      = genEndpoint { p with prompt_variables := bodyVars }
          (orgAuthKey orgs p.organization_id)
    ∧ (appsPost prompts orgs appId bodyVars genEndpoint).status
      = (genEndpoint { p with prompt_variables := bodyVars }
          (orgAuthKey orgs p.organization_id)).status
    ∧ (appsPost prompts orgs appId bodyVars genEndpoint).message
      = (genEndpoint { p with prompt_variables := bodyVars }
          (orgAuthKey orgs p.organization_id)).message
    ∧ (appsPost prompts orgs appId bodyVars genEndpoint).error
      = (genEndpoint { p with prompt_variables := bodyVars }
          (orgAuthKey orgs p.organization_id)).error := by
  have he : appsPost prompts orgs appId bodyVars genEndpoint
      = genEndpoint { p with prompt_variables := bodyVars }
          (orgAuthKey orgs p.organization_id) := by
    unfold appsPost
    rw [h]
  exact ⟨he, by rw [he], by rw [he], by rw [he]⟩

/-- A sample organization owning `samplePromptDoc`, for witnesses. -/
def sampleOrganization : OrganizationDoc :=
  { id := "org1"
    name := "org-sample"
    keys := [⟨"sk-sample", "Default API Key"⟩]
    sso := []
    namespaces := []
    extraFields := [] }

/-- Witness for C6 at concrete inputs: a generation endpoint answering
201 is relayed verbatim through `POST /apps/app1`. -/
theorem appsPost_relay_witness :
    appsPost [samplePromptDoc] [sampleOrganization] "app1" [("text", "hello")]
        (fun _ _ => ⟨201, "generated!", none⟩)
      = (fun (_ : PromptDoc) (_ : Option String) => (⟨201, "generated!", none⟩ : GenResponse))
          { samplePromptDoc with prompt_variables := [("text", "hello")] }
          (orgAuthKey [sampleOrganization] samplePromptDoc.organization_id) :=
  (appsPost_relays_generate_verbatim [samplePromptDoc] [sampleOrganization] "app1"
    [("text", "hello")] (fun _ _ => ⟨201, "generated!", none⟩) samplePromptDoc (by rfl)).1

/-! ## Variable model

Embedded from the in-repository documentation of
backend/src/models/mongodb/variable.ts: one document holds the `data`
array of name/value pairs for an organization; `createVariables`
inserts a new document unconditionally; `updateVariables`,
`getVariables` and `deleteVariables` act on the first document
matching the organization id.  The collection is modelled as a list in
natural (insertion) order. -/

structure VariableItem where
  name : String
  value : String
deriving DecidableEq

structure VariableDoc where
  data : List VariableItem
  organization_id : String
deriving DecidableEq

/-- `Variable.createVariables`: inserts a fresh document for the
organization with no uniqueness check. -/
def createVariables (coll : List VariableDoc) (data_list : List VariableItem)
    (organization_id : String) : List VariableDoc :=
  coll ++ [⟨data_list, organization_id⟩]

/-- `Variable.updateVariables`: replaces the `data` array of the first
document matching the organization id; no document, no update. -/
def updateVariables (coll : List VariableDoc) (data_list : List VariableItem)
    (organization_id : String) : List VariableDoc :=
  match coll with
  | [] => []
  | d :: rest =>
    if d.organization_id = organization_id then { d with data := data_list } :: rest
    else d :: updateVariables rest data_list organization_id

/-- `Variable.getVariables`: the `data` array of the first matching
document, or the empty array. -/
def getVariables (coll : List VariableDoc) (organization_id : String) : List VariableItem :=
  match coll.find? (fun d => d.organization_id == organization_id) with
  | none => []
  | some d => d.data

/-- `Variable.deleteVariables`: deletes the first matching document. -/
def deleteVariables (coll : List VariableDoc) (organization_id : String) : List VariableDoc :=
  match coll with
  | [] => []
  | d :: rest =>
    if d.organization_id = organization_id then rest
    else d :: deleteVariables rest organization_id

/-- Number of variable documents stored for an organization. -/
def countByOrg (coll : List VariableDoc) (organization_id : String) : Nat :=
  (coll.filter (fun d => d.organization_id == organization_id)).length

lemma countByOrg_createVariables (coll : List VariableDoc)
    (dl : List VariableItem) (org : String) :
    countByOrg (createVariables coll dl org) org = countByOrg coll org + 1 := by
  simp [countByOrg, createVariables, List.filter_append]

/-- C8: `createVariables` inserts a new document on every call (two
calls yield two more documents for the organization), while
`updateVariables`, `getVariables` and `deleteVariables` each operate
only on the first document matching the organization id. -/
theorem variable_store_create_unchecked_first_match_ops
    (coll pre post : List VariableDoc) (d : VariableDoc)
    (dl dl' : List VariableItem) (org : String)
    (hd : d.organization_id = org)
    (hpre : ∀ e ∈ pre, e.organization_id ≠ org) :
    countByOrg (createVariables coll dl org) org = countByOrg coll org + 1
    ∧ countByOrg (createVariables (createVariables coll dl org) dl' org) org
      = countByOrg coll org + 2
    ∧ updateVariables (pre ++ d :: post) dl org = pre ++ { d with data := dl } :: post
    ∧ getVariables (pre ++ d :: post) org = d.data
    ∧ deleteVariables (pre ++ d :: post) org = pre ++ post := by
  refine ⟨countByOrg_createVariables coll dl org, ?_, ?_, ?_, ?_⟩
  · rw [countByOrg_createVariables, countByOrg_createVariables]
  · induction pre with
    | nil => simp [updateVariables, hd]
    | cons e tl ih =>
      have hne : e.organization_id ≠ org := hpre e (by simp)
      rw [List.cons_append, updateVariables, if_neg hne,
        ih (fun e' he' => hpre e' (by simp [he'])), List.cons_append]
  · unfold getVariables
    have hfind : (pre ++ d :: post).find? (fun x => x.organization_id == org) = some d := by
      induction pre with
      | nil => simp [List.find?_cons, hd]
      | cons e tl ih =>
        have hbe : (e.organization_id == org) = false := by
          simpa using hpre e (by simp)
        rw [List.cons_append, List.find?_cons, hbe]
        exact ih (fun e' he' => hpre e' (by simp [he']))
    rw [hfind]
  · induction pre with
    | nil => simp [deleteVariables, hd]
    | cons e tl ih =>
      have hne : e.organization_id ≠ org := hpre e (by simp)
      rw [List.cons_append, deleteVariables, if_neg hne,
        ih (fun e' he' => hpre e' (by simp [he'])), List.cons_append]

/-- Witness for C8 at a concrete store: one non-matching document in
front of the `org1` document. -/
theorem variable_store_first_match_witness :
    countByOrg (createVariables [] [⟨"B", "2"⟩] "org1") "org1" = countByOrg [] "org1" + 1
    ∧ countByOrg (createVariables (createVariables [] [⟨"B", "2"⟩] "org1") [⟨"C", "3"⟩] "org1") "org1"
      = countByOrg [] "org1" + 2
    ∧ updateVariables ([⟨[], "org0"⟩] ++ (⟨[⟨"A", "1"⟩], "org1"⟩ : VariableDoc) :: []) [⟨"B", "2"⟩] "org1"
      = [⟨[], "org0"⟩] ++ (⟨[⟨"B", "2"⟩], "org1"⟩ : VariableDoc) :: []
    ∧ getVariables ([⟨[], "org0"⟩] ++ (⟨[⟨"A", "1"⟩], "org1"⟩ : VariableDoc) :: []) "org1"
      = [⟨"A", "1"⟩]
    ∧ deleteVariables ([⟨[], "org0"⟩] ++ (⟨[⟨"A", "1"⟩], "org1"⟩ : VariableDoc) :: []) "org1"
      = [⟨[], "org0"⟩] ++ [] := by
  have hpre : ∀ e ∈ [(⟨[], "org0"⟩ : VariableDoc)], e.organization_id ≠ "org1" := by
    intro e he
    simp only [List.mem_singleton] at he
    subst he
    decide
  exact variable_store_create_unchecked_first_match_ops [] [⟨[], "org0"⟩] []
    ⟨[⟨"A", "1"⟩], "org1"⟩ [⟨"B", "2"⟩] [⟨"C", "3"⟩] "org1" (by rfl) hpre

/-! ## Log model

Embedded from the in-repository documentation of
backend/src/models/mongodb/log.ts: `createLog(logData, organization_id)`
assigns the organization id to the data, replaces an invalid
`prompt_id` by undefined, and saves the document; `deleted` defaults
to false.  ObjectId validity is modelled as a 24-character hex
string. -/

/-- Hexadecimal characters, as accepted for a MongoDB ObjectId. -/
def isHexChar (c : Char) : Bool :=
  c.isDigit || ('a' ≤ c && c ≤ 'f') || ('A' ≤ c && c ≤ 'F')

/-- Validity of a MongoDB ObjectId string: 24 hex characters. -/
def isValidObjectId (s : String) : Bool :=
  s.length = 24 && s.data.all isHexChar

structure LogData where
  message : String
  raw : String
  data : String
  error : Bool
  status : Nat
  model_id : String
  prompt_id : Option String
  duration : Nat
  hash : String
deriving DecidableEq

structure LogDoc where
  message : String
  raw : String
  data : String
  error : Bool
  status : Nat
  model_id : String
  deleted : Bool
  prompt_id : Option String
  organization_id : String
  duration : Nat
  hash : String
deriving DecidableEq

/-- The `prompt_id` validation step of `createLog`: an invalid
ObjectId is replaced by undefined. -/
def validatePromptId : Option String → Option String
  | some pid => if isValidObjectId pid then some pid else none
  | none => none

/-- `Log.createLog`: the persisted document, with `organization_id`
taken from the argument and an invalid `prompt_id` dropped. -/
def createLog (logData : LogData) (organization_id : String) : LogDoc :=
  { message := logData.message
    raw := logData.raw
    data := logData.data
    error := logData.error
    status := logData.status
    model_id := logData.model_id
    deleted := false
    prompt_id := validatePromptId logData.prompt_id
    organization_id := organization_id
    duration := logData.duration
    hash := logData.hash }

lemma validatePromptId_some_valid (o : Option String) (pid : String)
    (h : validatePromptId o = some pid) : isValidObjectId pid = true := by
  cases o with
  | none => cases h
  | some q =>
    by_cases hq : isValidObjectId q = true
    · have hv : validatePromptId (some q) = some q := by simp [validatePromptId, hq]
      rw [hv] at h
      cases h
      exact hq
    · have hv : validatePromptId (some q) = none := by simp [validatePromptId, hq]
      rw [hv] at h
      cases h

/-- C10: every log entry created by `createLog` carries the
organization id of the argument, and its `prompt_id` is either a valid
ObjectId string or absent — an invalid `prompt_id` is dropped before
the document is saved. -/
theorem createLog_org_assigned_and_prompt_id_valid_or_absent
    (logData : LogData) (org : String) :
    (createLog logData org).organization_id = org
    ∧ (∀ pid, (createLog logData org).prompt_id = some pid → isValidObjectId pid = true)
    ∧ (∀ pid, logData.prompt_id = some pid → isValidObjectId pid = false →
        (createLog logData org).prompt_id = none) := by
  refine ⟨rfl, ?_, ?_⟩
  · intro pid hpid
    exact validatePromptId_some_valid logData.prompt_id pid hpid
  · intro pid hld hinvalid
    show validatePromptId logData.prompt_id = none
    rw [hld]
    simp [validatePromptId, hinvalid]

/-- A sample log payload with an invalid prompt id, for witnesses. -/
def sampleLogData : LogData :=
  { message := "m"
    raw := "r"
    data := "d"
    error := false
    status := 200
    model_id := "m1"
    prompt_id := some "not-an-objectid"
    duration := 3
    hash := "h" }

/-- Witness for C10 at concrete inputs: an invalid prompt id
(`not-an-objectid`) is dropped while the organization id is kept. -/
theorem createLog_witness :
    (createLog sampleLogData "org1").organization_id = "org1"
    ∧ (createLog sampleLogData "org1").prompt_id = none := by
  constructor
  · exact (createLog_org_assigned_and_prompt_id_valid_or_absent sampleLogData "org1").1
  · exact (createLog_org_assigned_and_prompt_id_valid_or_absent sampleLogData "org1").2.2
      "not-an-objectid" (by rfl) (by decide)

/-! ## Express routing stack

Embedded from backend/src/index.ts (lines 55-79): the public
`GET /ping` handler, then `app.use("/api", appsRouter)`, then
`app.use("/api", apiKeyMiddleware)`, then `GET /api/ping`, then the
generate, samples, prompts, logs, models, variables, organization,
users and embed routers (all mounted at `/api`), then the `/api/*`
404 catch-all.  CORS and body parsing are pure pass-throughs and are
omitted; everything after the `/api` catch-all (static assets,
frontend pages) is summarized by one fallback response.  Each router
and the api-key middleware is an abstract handler: `none` means
"call next()", `some r` means "respond with r".  `dispatch` returns
the response together with the trace of `/api`-layer components the
request reached, in order. -/

structure Req where
  method : String
  path : List String
  authorization : Option String
deriving DecidableEq

structure HttpResp where
  status : Nat
  body : String
deriving DecidableEq

structure Routers where
  appsRouter : Req → Option HttpResp
  apiKeyMiddleware : Req → Option HttpResp
  generateRouter : Req → Option HttpResp
  samplesRouter : Req → Option HttpResp
  promptsRouter : Req → Option HttpResp
  logsRouter : Req → Option HttpResp
  modelsRouter : Req → Option HttpResp
  variablesRouter : Req → Option HttpResp
  organizationRouter : Req → Option HttpResp
  usersRouter : Req → Option HttpResp
  embedRouter : Req → Option HttpResp

def pongResp : HttpResp := ⟨200, "pong"⟩

def apiNotFoundResp : HttpResp := ⟨404, "API not found!"⟩

def frontendResp : HttpResp := ⟨200, "static"⟩

/-- Whether a request path falls under the `/api` mount point. -/
def isApiPath : List String → Bool
  | "api" :: _ => true
  | _ => false

/-- The routers mounted after the api-key middleware, in the order of
index.ts. -/
def apiRouters (rs : Routers) : List (String × (Req → Option HttpResp)) :=
  [("generate", rs.generateRouter), ("samples", rs.samplesRouter),
   ("prompts", rs.promptsRouter), ("logs", rs.logsRouter),
   ("models", rs.modelsRouter), ("variables", rs.variablesRouter),
   ("organization", rs.organizationRouter), ("users", rs.usersRouter),
   ("embed", rs.embedRouter)]

/-- Run a chain of routers in order, tracing the ones reached. -/
def tryRouters : List (String × (Req → Option HttpResp)) → Req → Option HttpResp × List String
  | [], _ => (none, [])
  | (n, h) :: rest, req =>
    match h req with
    | some r => (some r, [n])
    | none =>
      let o := tryRouters rest req
      (o.1, n :: o.2)

/-- The request pipeline of index.ts. -/
def dispatch (rs : Routers) (req : Req) : HttpResp × List String :=
  if req.method = "GET" ∧ req.path = ["ping"] then (pongResp, [])
  else if isApiPath req.path then
    match rs.appsRouter req with
    | some r => (r, ["apps"])
    | none =>
      match rs.apiKeyMiddleware req with
      | some r => (r, ["apps", "auth"])
      | none =>
        if req.method = "GET" ∧ req.path = ["api", "ping"] then
          (pongResp, ["apps", "auth"])
        else
          match tryRouters (apiRouters rs) req with
          | (some r, ns) => (r, "apps" :: "auth" :: ns)
          | (none, ns) => (apiNotFoundResp, "apps" :: "auth" :: ns)
  else (frontendResp, [])

/-- The names of the routers protected by the api-key middleware. -/
def protectedRouterNames : List String :=
  ["generate", "samples", "prompts", "logs", "models", "variables",
   "organization", "users", "embed"]

/-- C9: a request answered by the apps router is handled without the
api-key middleware ever running, while any request reaching one of the
generate, samples, prompts, logs, models, variables, organization,
users or embed routers has first passed the api-key middleware
(it ran, and it let the request through). -/
theorem apps_router_unauthenticated_protected_routers_authenticated
    (rs : Routers) (req : Req) :
    (∀ r, isApiPath req.path = true → rs.appsRouter req = some r →
      dispatch rs req = (r, ["apps"]) ∧ "auth" ∉ (dispatch rs req).2)
    ∧ (∀ n, n ∈ protectedRouterNames → n ∈ (dispatch rs req).2 →
      rs.apiKeyMiddleware req = none ∧ "auth" ∈ (dispatch rs req).2) := by
  constructor
  · intro r hapi happs
    have hping : ¬ (req.method = "GET" ∧ req.path = ["ping"]) := by
      rintro ⟨-, hp⟩
      rw [hp] at hapi
      cases hapi
    have hd : dispatch rs req = (r, ["apps"]) := by
      unfold dispatch
      rw [if_neg hping, if_pos hapi, happs]
    refine ⟨hd, ?_⟩
    rw [hd]
    intro hmem
    simp at hmem
  · intro n hn htrace
    by_cases h1 : req.method = "GET" ∧ req.path = ["ping"]
    · have hd : dispatch rs req = (pongResp, []) := by
        unfold dispatch
        rw [if_pos h1]
      rw [hd] at htrace
      cases htrace
    by_cases h2 : isApiPath req.path = true
    · cases happs : rs.appsRouter req with
      | some r =>
        have hd : dispatch rs req = (r, ["apps"]) := by
          unfold dispatch
          rw [if_neg h1, if_pos h2, happs]
        rw [hd] at htrace
        simp only [List.mem_cons, List.not_mem_nil, or_false] at htrace
        subst htrace
        simp [protectedRouterNames] at hn
      | none =>
        cases hauth : rs.apiKeyMiddleware req with
        | some r =>
          have hd : dispatch rs req = (r, ["apps", "auth"]) := by
            unfold dispatch
            rw [if_neg h1, if_pos h2, happs, hauth]
          rw [hd] at htrace
          simp only [List.mem_cons, List.not_mem_nil, or_false] at htrace
          rcases htrace with rfl | rfl
          · simp [protectedRouterNames] at hn
          · simp [protectedRouterNames] at hn
        | none =>
          by_cases h3 : req.method = "GET" ∧ req.path = ["api", "ping"]
          · have hd : dispatch rs req = (pongResp, ["apps", "auth"]) := by
              unfold dispatch
              rw [if_neg h1, if_pos h2, happs, hauth, if_pos h3]
            exact ⟨rfl, by rw [hd]; simp⟩
          · rcases htr : tryRouters (apiRouters rs) req with ⟨o, ns⟩
            cases o with
            | some r =>
              have hd : dispatch rs req = (r, "apps" :: "auth" :: ns) := by
                unfold dispatch
                rw [if_neg h1, if_pos h2, happs, hauth, if_neg h3, htr]
              exact ⟨rfl, by rw [hd]; simp⟩
            | none =>
              have hd : dispatch rs req = (apiNotFoundResp, "apps" :: "auth" :: ns) := by
                unfold dispatch
                rw [if_neg h1, if_pos h2, happs, hauth, if_neg h3, htr]
              exact ⟨rfl, by rw [hd]; simp⟩
    · have hd : dispatch rs req = (frontendResp, []) := by
        unfold dispatch
        rw [if_neg h1, if_neg (by simpa using h2)]
      rw [hd] at htrace
      cases htrace

/-- A sample router environment for witnesses: the apps router answers
`/api/apps/app1`, the generate router answers everything else, and the
api-key middleware always passes. -/
def sampleRouters : Routers :=
  { appsRouter := fun req =>
      if req.path = ["api", "apps", "app1"] then some ⟨200, "app"⟩ else none
    apiKeyMiddleware := fun _ => none
    generateRouter := fun _ => some ⟨200, "gen"⟩
    samplesRouter := fun _ => none
    promptsRouter := fun _ => none
    logsRouter := fun _ => none
    modelsRouter := fun _ => none
    variablesRouter := fun _ => none
    organizationRouter := fun _ => none
    usersRouter := fun _ => none
    embedRouter := fun _ => none }

/-- Witness for C9 at concrete requests: the apps request is answered
with no auth in the trace, and a generate request carries the auth
middleware in its trace with the middleware passing. -/
theorem routing_dispatch_witness :
    (dispatch sampleRouters ⟨"GET", ["api", "apps", "app1"], none⟩
        = (⟨200, "app"⟩, ["apps"])
      ∧ "auth" ∉ (dispatch sampleRouters ⟨"GET", ["api", "apps", "app1"], none⟩).2)
    ∧ (sampleRouters.apiKeyMiddleware ⟨"POST", ["api", "generate"], none⟩ = none
      ∧ "auth" ∈ (dispatch sampleRouters ⟨"POST", ["api", "generate"], none⟩).2) := by
  constructor
  · exact (apps_router_unauthenticated_protected_routers_authenticated
      sampleRouters ⟨"GET", ["api", "apps", "app1"], none⟩).1 ⟨200, "app"⟩ (by rfl) (by rfl)
  · exact (apps_router_unauthenticated_protected_routers_authenticated
      sampleRouters ⟨"POST", ["api", "generate"], none⟩).2 "generate" (by decide) (by decide)

end PromptDesk
